import Mathlib

/-!
Verification development for the `askai` setup wizard (`config_setup.py`).

The wizard is an interactive, single-threaded loop over standard input.  We
embed it shallowly: standard input is a `List String` of the lines the
operator types (one element per `input()`/`getpass()` call), standard output
is the list of strings passed to `click.echo` (terminal coloring via
`click.style` is display-only and dropped), and Python `float` values are
modelled as exact rationals extended with `nan` and signed infinity — the
program only parses, compares and stores floats, never does arithmetic on
them, so the exact-rational model agrees with IEEE semantics on every
comparison the program performs.

`input()` prompt texts (the long per-step explanation strings passed to
`input(...)`) are display-only and not modelled as outputs.
-/

/-- A Python `float` value as used by the wizard: a finite value (modelled
exactly as a rational), `nan`, or a signed infinity.  Python's comparison
operators on floats are total on non-`nan` values and always `False` when
either side is `nan`. -/
inductive PyFloat where
  | finite (q : ℚ)
  | nan
  | inf (pos : Bool)
  deriving DecidableEq

/-- Python `<=` on floats: any comparison with `nan` is `False`; `-inf` is
below everything else and `+inf` above everything else. -/
def pyLe : PyFloat → PyFloat → Bool
  | .nan, _ => false
  | _, .nan => false
  | .inf a, .inf b => !a || b
  | .inf a, .finite _ => !a
  | .finite _, .inf b => b
  | .finite a, .finite b => decide (a ≤ b)

/-- Strip leading and trailing whitespace, as Python's `int(str)`/`float(str)`
do before parsing (modelled for ASCII whitespace). -/
def pyStripChars (cs : List Char) : List Char :=
  ((cs.dropWhile Char.isWhitespace).reverse.dropWhile Char.isWhitespace).reverse

/-- Decimal value of a digit string (caller guarantees all digits). -/
def digitsToNat (cs : List Char) : ℕ :=
  cs.foldl (fun a c => a * 10 + (c.toNat - 48)) 0

/-- A nonempty all-digit run, as required after the optional sign by Python's
`int(str)` (numeric-literal underscores are out of modelling scope). -/
def natCore (cs : List Char) : Option ℕ :=
  if cs ≠ [] ∧ cs.all Char.isDigit then some (digitsToNat cs) else none

/-- Model of Python `int(str)`: optional surrounding whitespace, optional
sign, then a nonempty digit run; anything else raises `ValueError`
(here: `none`). -/
def int_of_string (s : String) : Option ℤ :=
  match pyStripChars s.toList with
  | '+' :: rest => (natCore rest).map Int.ofNat
  | '-' :: rest => (natCore rest).map (fun n => -(n : ℤ))
  | rest => (natCore rest).map Int.ofNat

/-- Model of `config_setup._is_int`: `int(x)` succeeds. -/
def _is_int (s : String) : Bool :=
  (int_of_string s).isSome

/-- Signed exponent part after `e`/`E` in a float literal. -/
def expVal (cs : List Char) : Option ℤ :=
  match cs with
  | '+' :: rest => (natCore rest).map Int.ofNat
  | '-' :: rest => (natCore rest).map (fun n => -(n : ℤ))
  | rest => (natCore rest).map Int.ofNat

/-- The exact rational value `digits * 10 ^ e / 10 ^ fracLen` of a decimal
mantissa with `fracLen` fractional digits and exponent `e` (written with
`mkRat` over integer arithmetic so that concrete values reduce). -/
def decimalValue (digits : ℕ) (fracLen : ℕ) (e : ℤ) : ℚ :=
  if 0 ≤ e then mkRat (digits * 10 ^ e.toNat) (10 ^ fracLen)
  else mkRat digits (10 ^ fracLen * 10 ^ (-e).toNat)

/-- Finite-literal part of Python `float(str)` after sign handling:
`digits [. digits] [(e|E) signed-digits]`, with at least one digit in the
mantissa.  The value is taken exactly as a rational. -/
def finiteCore (cs : List Char) (pos : Bool) : Option PyFloat :=
  let ip := cs.takeWhile Char.isDigit
  let r1 := cs.dropWhile Char.isDigit
  let fp := match r1 with
            | '.' :: t => t.takeWhile Char.isDigit
            | _ => []
  let r2 := match r1 with
            | '.' :: t => t.dropWhile Char.isDigit
            | _ => r1
  if ip = [] ∧ fp = [] then none
  else
    let signed : ℚ → PyFloat := fun q => .finite (if pos then q else -q)
    match r2 with
    | [] => some (signed (decimalValue (digitsToNat (ip ++ fp)) fp.length 0))
    | 'e' :: t => (expVal t).map (fun e => signed (decimalValue (digitsToNat (ip ++ fp)) fp.length e))
    | 'E' :: t => (expVal t).map (fun e => signed (decimalValue (digitsToNat (ip ++ fp)) fp.length e))
    | _ => none

/-- Body of Python `float(str)` after the optional sign: the special
spellings `inf`/`infinity`/`nan` (case-insensitive; a sign on `nan` is
ignored), or a finite literal. -/
def floatCore (cs : List Char) (pos : Bool) : Option PyFloat :=
  let low := cs.map Char.toLower
  if low = ['i', 'n', 'f'] ∨ low = ['i', 'n', 'f', 'i', 'n', 'i', 't', 'y'] then
    some (.inf pos)
  else if low = ['n', 'a', 'n'] then
    some .nan
  else finiteCore cs pos

/-- Model of Python `float(str)`: optional surrounding whitespace, optional
sign, then a float body (numeric-literal underscores are out of modelling
scope). -/
def float_of_string (s : String) : Option PyFloat :=
  match pyStripChars s.toList with
  | '+' :: rest => floatCore rest true
  | '-' :: rest => floatCore rest false
  | rest => floatCore rest true

/-- Model of `config_setup._is_float`: `float(x)` succeeds. -/
def _is_float (s : String) : Bool :=
  (float_of_string s).isSome

/-- Outcome of one interactive prompt step on a given input stream: the step
returns a value with the unconsumed input and the echoed output lines, or it
hits `exit(1)` (retry exhaustion), or `input()` meets end of stream
(Python would raise `EOFError`). -/
inductive StepResult (α : Type) where
  | ok (value : α) (rest : List String) (out : List String)
  | aborted (out : List String)
  | eof (out : List String)
  deriving DecidableEq

/-- Prefix additional already-echoed lines onto a step outcome's output. -/
def prependOut (o : List String) : StepResult α → StepResult α
  | .ok v rest out => .ok v rest (o ++ out)
  | .aborted out => .aborted (o ++ out)
  | .eof out => .eof (o ++ out)

/-- The fatal retry-exhaustion message printed before `exit(1)`. -/
def abortMsg : String := "Too many invalid tries. Aborted!"

/-- The step ended in `exit(1)` having printed the given line. -/
def StepResult.abortsWith (r : StepResult α) (m : String) : Prop :=
  ∃ out, r = .aborted out ∧ m ∈ out

/-- Digits of the fractional part of a nonnegative rational below 1, with
fuel bounding the number of emitted digits (enough for every value this
program prints). -/
def fracDigits : ℕ → ℚ → List Char
  | 0, _ => []
  | fuel + 1, q =>
    if q.num = 0 then []
    else
      let n10 : ℤ := q.num * 10
      let d : ℕ := (n10 / (q.den : ℤ)).toNat
      Char.ofNat (48 + d) :: fracDigits fuel (mkRat (n10 - d * q.den) q.den)

/-- Decimal rendering of a nonnegative rational the way Python's `str`
renders the corresponding float (always with a decimal point, e.g. `0.4`,
`300.0`). -/
def renderNonnegQ (q : ℚ) : String :=
  let ipart : ℕ := q.num.toNat / q.den
  let ds := fracDigits 30 (mkRat (q.num - ipart * q.den) q.den)
  toString ipart ++ "." ++ (if ds = [] then "0" else String.mk ds)

/-- Decimal rendering of a rational as Python `str` of the float. -/
def renderQ (q : ℚ) : String :=
  if q < 0 then "-" ++ renderNonnegQ (-q) else renderNonnegQ q

/-- Python `str` of a float value. -/
def pyFloatRepr : PyFloat → String
  | .finite q => renderQ q
  | .nan => "nan"
  | .inf true => "inf"
  | .inf false => "-inf"

/-- Model of `SetupHelper._user_input_integer` (the `input_text` prompt is
display-only and omitted).  The `for _ in range(max_tries)` loop reads one
line per iteration: empty input returns `default` at once, a line that is
not an integer or fails `predicate` echoes the matching error and retries,
and a valid line is echoed and returned as `int(input_value)`; falling off
the loop prints the abort message and calls `exit(1)`. -/
def user_input_integer (dflt : ℤ) (pred : ℤ → Bool) : ℕ → List String → StepResult ℤ
  | 0, _ => .aborted [abortMsg]
  | _ + 1, [] => .eof []
  | n + 1, v :: rest =>
    if v = "" then .ok dflt rest ["Value chosen: " ++ toString dflt, ""]
    else
      match int_of_string v with
      | none => prependOut ["Input is not an integer.\n"] (user_input_integer dflt pred n rest)
      | some i =>
        if pred i then .ok i rest ["Value chosen: " ++ v, ""]
        else prependOut ["Input is not within allowed range.\n"] (user_input_integer dflt pred n rest)

/-- Model of `SetupHelper._user_input_float`, same shape as the integer
variant with the float parser and float error text. -/
def user_input_float (dflt : PyFloat) (pred : PyFloat → Bool) : ℕ → List String → StepResult PyFloat
  | 0, _ => .aborted [abortMsg]
  | _ + 1, [] => .eof []
  | n + 1, v :: rest =>
    if v = "" then .ok dflt rest ["Value chosen: " ++ pyFloatRepr dflt, ""]
    else
      match float_of_string v with
      | none => prependOut ["Input is not a float.\n"] (user_input_float dflt pred n rest)
      | some x =>
        if pred x then .ok x rest ["Value chosen: " ++ v, ""]
        else prependOut ["Input is not within allowed range.\n"] (user_input_float dflt pred n rest)

/-- The `AvailableModels` enum: four members with `auto()` values 1–4. -/
inductive AvailableModels where
  | TEXT_ADA_001
  | TEXT_BABBAGE_001
  | TEXT_CURIE_001
  | TEXT_DAVINCI_003
  deriving DecidableEq

/-- The Python `Enum` member name. -/
def AvailableModels.rawName : AvailableModels → String
  | .TEXT_ADA_001 => "TEXT_ADA_001"
  | .TEXT_BABBAGE_001 => "TEXT_BABBAGE_001"
  | .TEXT_CURIE_001 => "TEXT_CURIE_001"
  | .TEXT_DAVINCI_003 => "TEXT_DAVINCI_003"

/-- `c.name.replace("_", "-").lower()`. -/
def AvailableModels.pyName (a : AvailableModels) : String :=
  String.mk (a.rawName.toList.map (fun c => if c = '_' then '-' else c.toLower))

/-- Iteration order of the enum members (`for c in cls`). -/
def AvailableModels.members : List AvailableModels :=
  [.TEXT_ADA_001, .TEXT_BABBAGE_001, .TEXT_CURIE_001, .TEXT_DAVINCI_003]

/-- Model of `AvailableModels.as_list`. -/
def AvailableModels.as_list : List String :=
  AvailableModels.members.map AvailableModels.pyName

/-- The `auto()` value of each member. -/
def AvailableModels.value : AvailableModels → ℤ
  | .TEXT_ADA_001 => 1
  | .TEXT_BABBAGE_001 => 2
  | .TEXT_CURIE_001 => 3
  | .TEXT_DAVINCI_003 => 4

/-- `AvailableModels(i)`: member lookup by `auto()` value. -/
def AvailableModels.ofValue (i : ℤ) : Option AvailableModels :=
  if i = 1 then some .TEXT_ADA_001
  else if i = 2 then some .TEXT_BABBAGE_001
  else if i = 3 then some .TEXT_CURIE_001
  else if i = 4 then some .TEXT_DAVINCI_003
  else none

/-- The validity test of the model-selection loop:
`_is_int(model) and int(model) in range(1, 5)`. -/
def isValidModelChoice (s : String) : Bool :=
  match int_of_string s with
  | none => false
  | some i => decide (1 ≤ i ∧ i < 5)

/-- `AvailableModels(int(model)).name.replace("_", "-").lower()` for a
string that passed the validity test. -/
def modelChoiceName (s : String) : String :=
  match int_of_string s with
  | some i =>
    match AvailableModels.ofValue i with
    | some a => a.pyName
    | none => ""
  | none => ""

/-- The re-prompt error of the model-selection loop (printed for both a
non-integer input and an integer outside 1–4). -/
def modelErrMsg : String := "Choose value between 1 and 4."

/-- The `while` loop of `SetupHelper.user_input_model`: `m` is the line just
read, `numTries` the current value of `num_of_tries`.  While the line is
invalid: abort once `num_of_tries >= max_tries`, otherwise echo the error,
read the next line and increment the counter.  On a valid line, store the
mapped model name and echo it. -/
def user_input_model_loop (maxTries : ℕ) : String → ℕ → List String → StepResult String
  | m, numTries, inputs =>
    if isValidModelChoice m then
      .ok (modelChoiceName m) inputs ["Model chosen: " ++ modelChoiceName m, ""]
    else if maxTries ≤ numTries then .aborted [abortMsg]
    else
      match inputs with
      | [] => .eof [modelErrMsg]
      | v :: rest => prependOut [modelErrMsg] (user_input_model_loop maxTries v (numTries + 1) rest)

/-- The step header and enumerated menu echoed by `user_input_model` before
the first read. -/
def modelMenu (stepNum : ℕ) : List String :=
  ("-> STEP " ++ toString stepNum ++ " - SET MODEL") ::
    AvailableModels.as_list.enum.map (fun p => "   " ++ toString (p.1 + 1) ++ ") " ++ p.2)

/-- Model of `SetupHelper.user_input_model`: echo the menu, read the first
line, then run the retry loop with `num_of_tries = 1`. -/
def user_input_model (stepNum : ℕ) (maxTries : ℕ) (inputs : List String) : StepResult String :=
  match inputs with
  | [] => .eof (modelMenu stepNum)
  | v :: rest => prependOut (modelMenu stepNum) (user_input_model_loop maxTries v 1 rest)

/-- The `while` loop of `SetupHelper.user_input_api_key`: `key` is the
secret just read via `getpass`, `numTries` the current `num_tries`;
`valid` is the external credential-check collaborator
(`_is_valid_api_key`, a remote probe returning `False` on
`AuthenticationError`).  While the key is rejected: abort once
`num_tries >= max_tries`, otherwise echo the error and read another key. -/
def api_key_loop (valid : String → Bool) (maxTries : ℕ) : String → ℕ → List String → StepResult String
  | key, numTries, inputs =>
    if valid key then .ok key inputs []
    else if maxTries ≤ numTries then .aborted [abortMsg]
    else
      match inputs with
      | [] => .eof ["The API key is not valid."]
      | k :: rest => prependOut ["The API key is not valid."] (api_key_loop valid maxTries k (numTries + 1) rest)

/-- Model of `SetupHelper.user_input_api_key` (its informational pre-loop
echoes are display-only and omitted): read a key, then run the retry loop
with `num_tries = 1`. -/
def user_input_api_key (valid : String → Bool) (maxTries : ℕ) (inputs : List String) : StepResult String :=
  match inputs with
  | [] => .eof []
  | k :: rest => api_key_loop valid maxTries k 1 rest

/-- `lambda x: x > 0` used by the answer-count and max-tokens steps. -/
def posIntPred (x : ℤ) : Bool := decide (0 < x)

/-- `lambda x: 0.0 <= x <= 1.0` (Python chained comparison) used by the
temperature and top_p steps. -/
def unitRangePred (x : PyFloat) : Bool :=
  pyLe (.finite 0) x && pyLe x (.finite 1)

/-- `lambda x: -2.0 <= x <= 2.0` used by the two penalty steps. -/
def penaltyRangePred (x : PyFloat) : Bool :=
  pyLe (.finite (-2)) x && pyLe x (.finite 2)

/-- Model of `SetupHelper.user_input_num_answers`: integer prompt, default
1, predicate `x > 0` (the `step_num` only feeds the display-only prompt). -/
def user_input_num_answers (maxTries : ℕ) (inputs : List String) : StepResult ℤ :=
  user_input_integer 1 posIntPred maxTries inputs

/-- Model of `SetupHelper.user_input_max_token`: integer prompt, default
300, predicate `x > 0`. -/
def user_input_max_token (maxTries : ℕ) (inputs : List String) : StepResult ℤ :=
  user_input_integer 300 posIntPred maxTries inputs

/-- Model of `SetupHelper.user_input_temperature`: float prompt, default
0.4, predicate `0.0 <= x <= 1.0`. -/
def user_input_temperature (maxTries : ℕ) (inputs : List String) : StepResult PyFloat :=
  user_input_float (.finite (0.4 : ℚ)) unitRangePred maxTries inputs

/-- Model of `SetupHelper.user_input_top_p`: float prompt, default 0.0,
predicate `0.0 <= x <= 1.0`. -/
def user_input_top_p (maxTries : ℕ) (inputs : List String) : StepResult PyFloat :=
  user_input_float (.finite 0) unitRangePred maxTries inputs

/-- Model of `SetupHelper.user_input_frequency_penalty`: float prompt,
default 0.0, predicate `-2.0 <= x <= 2.0`. -/
def user_input_frequency_penalty (maxTries : ℕ) (inputs : List String) : StepResult PyFloat :=
  user_input_float (.finite 0) penaltyRangePred maxTries inputs

/-- Model of `SetupHelper.user_input_presence_penalty`: float prompt,
default 0.0, predicate `-2.0 <= x <= 2.0`. -/
def user_input_presence_penalty (maxTries : ℕ) (inputs : List String) : StepResult PyFloat :=
  user_input_float (.finite 0) penaltyRangePred maxTries inputs

/-- The in-memory configuration collected by `SetupHelper` (its `_model`,
`_num_answers`, `_max_tokens`, `_temperature`, `_top_p`,
`_frequency_penalty`, `_presence_penalty` fields once all steps ran). -/
structure Config where
  model : String
  num_answers : ℤ
  max_tokens : ℤ
  temperature : PyFloat
  top_p : PyFloat
  frequency_penalty : PyFloat
  presence_penalty : PyFloat
  deriving DecidableEq

/-- A scalar value of the configuration document. -/
inductive YVal where
  | s (v : String)
  | i (v : ℤ)
  | f (v : PyFloat)
  deriving DecidableEq

/-- The `config` dict literal built by `SetupHelper.save_config`, in
insertion order. -/
def config_dict (c : Config) : List (String × YVal) :=
  [("model", .s c.model),
   ("num_answers", .i c.num_answers),
   ("max_tokens", .i c.max_tokens),
   ("temperature", .f c.temperature),
   ("top_p", .f c.top_p),
   ("frequency_penalty", .f c.frequency_penalty),
   ("presence_penalty", .f c.presence_penalty)]

/-- Scalar rendering used by the YAML document (plain style, as PyYAML
emits strings, integers and floats of this configuration). -/
def renderYVal : YVal → String
  | .s v => v
  | .i v => toString v
  | .f v => pyFloatRepr v

/-- Lexicographic code-point order on character lists (the order in which
PyYAML sorts mapping keys). -/
def charListLeb : List Char → List Char → Bool
  | [], _ => true
  | _ :: _, [] => false
  | a :: as, b :: bs =>
    if a = b then charListLeb as bs else decide (a.toNat < b.toNat)

/-- String order used to sort keys. -/
def strLeb (a b : String) : Bool := charListLeb a.toList b.toList

/-- Insert into a key-sorted association list. -/
def insertByKey (p : String × YVal) : List (String × YVal) → List (String × YVal)
  | [] => [p]
  | q :: t => if strLeb p.1 q.1 then p :: q :: t else q :: insertByKey p t

/-- Insertion sort by key (PyYAML's `yaml.dump` sorts keys by default). -/
def sortByKey : List (String × YVal) → List (String × YVal)
  | [] => []
  | p :: t => insertByKey p (sortByKey t)

/-- Modelled from the spec: `yaml.dump` of a flat mapping of scalars (the
PyYAML library is an external collaborator, not in the repository): one
`key: value` line per entry, keys sorted alphabetically. -/
def yaml_dump (d : List (String × YVal)) : String :=
  String.join ((sortByKey d).map (fun p => p.1 ++ ": " ++ renderYVal p.2 ++ "\n"))

/-- Classify one scalar the way the YAML reader resolves the scalars this
document contains: an integer literal, else a float literal, else a plain
string. -/
def parseYVal (v : String) : YVal :=
  match int_of_string v with
  | some i => .i i
  | none =>
    match float_of_string v with
    | some x => .f x
    | none => .s v

/-- Split a character stream at newlines (`acc` holds the reversed current
line). -/
def splitLinesAux : List Char → List Char → List (List Char)
  | [], acc => [acc.reverse]
  | c :: rest, acc =>
    if c = '\n' then acc.reverse :: splitLinesAux rest []
    else splitLinesAux rest (c :: acc)

/-- Split a line at the first `: ` separator into key and value. -/
def splitKeyValue : List Char → Option (List Char × List Char)
  | [] => none
  | ':' :: ' ' :: rest => some ([], rest)
  | c :: rest => (splitKeyValue rest).map (fun p => (c :: p.1, p.2))

/-- Parse one `key: value` line of the document (a line with no separator,
such as an empty line, contributes nothing). -/
def parseYamlLine (line : List Char) : Option (String × YVal) :=
  (splitKeyValue line).map (fun p => (String.mk p.1, parseYVal (String.mk p.2)))

/-- Modelled from the spec: re-reading the configuration document (the YAML
loader is an external collaborator, not in the repository): one mapping
entry per nonempty line. -/
def yaml_load (s : String) : List (String × YVal) :=
  (splitLinesAux s.toList []).filterMap parseYamlLine

/-- First value stored under a key. -/
def lookupKey (k : String) (d : List (String × YVal)) : Option YVal :=
  (d.find? (fun p => p.1 == k)).map Prod.snd

/-- Rebuild a `Config` record from a mapping, requiring each of the seven
fields to be present with its expected scalar type. -/
def configFromDict (d : List (String × YVal)) : Option Config := do
  let .s m ← lookupKey "model" d | none
  let .i na ← lookupKey "num_answers" d | none
  let .i mt ← lookupKey "max_tokens" d | none
  let .f t ← lookupKey "temperature" d | none
  let .f tp ← lookupKey "top_p" d | none
  let .f fp ← lookupKey "frequency_penalty" d | none
  let .f pp ← lookupKey "presence_penalty" d | none
  some ⟨m, na, mt, t, tp, fp, pp⟩

/-- Model of `SetupHelper.save_config`: serialize the collected record to
the configuration document (the write to `CONFIG_PATH` is the returned
string). -/
def save_config (c : Config) : String :=
  yaml_dump (config_dict c)

/-- Outcome of a whole wizard run: `finished` carries the two files written
(credential file content, configuration document) and exits 0; `abortedRun`
is `exit(1)` with no file written; `crashed` is an uncaught `EOFError`. -/
inductive RunOutcome where
  | finished (keyFile : String) (configFile : String)
  | abortedRun
  | crashed
  deriving DecidableEq

/-- Process exit status of a run (`none` for an uncaught exception). -/
def RunOutcome.exitCode : RunOutcome → Option ℕ
  | .finished _ _ => some 0
  | .abortedRun => some 1
  | .crashed => none

/-- Content of the configuration file after the run, if one was written. -/
def RunOutcome.configWritten : RunOutcome → Option String
  | .finished _ c => some c
  | _ => none

/-- Content of the credential file after the run, if one was written. -/
def RunOutcome.keyWritten : RunOutcome → Option String
  | .finished k _ => some k
  | _ => none

/-- Sequence a step into the rest of the run: `exit(1)` inside a step ends
the whole process (no later persistence happens), end-of-input crashes it. -/
def runStep (r : StepResult α) (k : α → List String → RunOutcome) : RunOutcome :=
  match r with
  | .ok v rest _ => k v rest
  | .aborted _ => .abortedRun
  | .eof _ => .crashed

/-- Modelled from the spec: the wizard driver (the `main` module wiring the
steps together is not part of the repository's sources).  Per the spec's
state machine it runs Credential → Model → AnswerCount → MaxTokens →
Temperature → TopP → FrequencyPenalty → PresencePenalty in order, then
persists the credential file and the configuration document; any step's
retry exhaustion terminates the whole run with no file written. -/
def runWizard (validKey : String → Bool) (maxTries : ℕ) (inputs : List String) : RunOutcome :=
  runStep (user_input_api_key validKey maxTries inputs) (fun key r1 =>
  runStep (user_input_model 1 maxTries r1) (fun model r2 =>
  runStep (user_input_num_answers maxTries r2) (fun na r3 =>
  runStep (user_input_max_token maxTries r3) (fun mtok r4 =>
  runStep (user_input_temperature maxTries r4) (fun temp r5 =>
  runStep (user_input_top_p maxTries r5) (fun tp r6 =>
  runStep (user_input_frequency_penalty maxTries r6) (fun fp r7 =>
  runStep (user_input_presence_penalty maxTries r7) (fun pp _ =>
  RunOutcome.finished key (save_config ⟨model, na, mtok, temp, tp, fp, pp⟩)))))))))

/-- A line that the integer prompt rejects as one invalid attempt: nonempty
and either not an integer or failing the step's predicate. -/
def intAttemptInvalid (pred : ℤ → Bool) (s : String) : Bool :=
  !(s == "") &&
    match int_of_string s with
    | none => true
    | some i => !(pred i)

/-- A line that the float prompt rejects as one invalid attempt: nonempty
and either not a float or failing the step's predicate. -/
def floatAttemptInvalid (pred : PyFloat → Bool) (s : String) : Bool :=
  !(s == "") &&
    match float_of_string s with
    | none => true
    | some x => !(pred x)

/-- The configuration record of the round-trip scenario: every field at its
documented default, with the `text-davinci-003` model. -/
def defaultDavinciConfig : Config :=
  ⟨"text-davinci-003", 1, 300, .finite (0.4 : ℚ), .finite 0, .finite 0, .finite 0⟩

theorem prependOut_abortsWith (o : List String) (r : StepResult α) (m : String)
    (h : r.abortsWith m) : (prependOut o r).abortsWith m := by
  obtain ⟨out, heq, hm⟩ := h
  subst heq
  exact ⟨o ++ out, rfl, List.mem_append_right o hm⟩

theorem eq_ok_of_prependOut {α : Type} {o : List String} {r : StepResult α}
    {v : α} {rest out : List String}
    (h : prependOut o r = .ok v rest out) : ∃ o2, r = .ok v rest o2 := by
  cases r with
  | ok v2 r2 o2 =>
    simp only [prependOut, StepResult.ok.injEq] at h
    exact ⟨o2, by rw [h.1, h.2.1]⟩
  | aborted o2 => simp [prependOut] at h
  | eof o2 => simp [prependOut] at h

theorem intAttemptInvalid_spec {p : ℤ → Bool} {s : String}
    (h : intAttemptInvalid p s = true) :
    ¬s = "" ∧ ∀ i, int_of_string s = some i → p i = false := by
  simp only [intAttemptInvalid, Bool.and_eq_true, Bool.not_eq_true'] at h
  obtain ⟨h1, h2⟩ := h
  refine ⟨by simpa using h1, fun i hi => ?_⟩
  rw [hi] at h2
  simpa using h2

theorem floatAttemptInvalid_spec {p : PyFloat → Bool} {s : String}
    (h : floatAttemptInvalid p s = true) :
    ¬s = "" ∧ ∀ x, float_of_string s = some x → p x = false := by
  simp only [floatAttemptInvalid, Bool.and_eq_true, Bool.not_eq_true'] at h
  obtain ⟨h1, h2⟩ := h
  refine ⟨by simpa using h1, fun x hx => ?_⟩
  rw [hx] at h2
  simpa using h2

theorem user_input_integer_exhaust (d : ℤ) (p : ℤ → Bool) :
    ∀ bad rest : List String, (∀ s ∈ bad, intAttemptInvalid p s = true) →
      (user_input_integer d p bad.length (bad ++ rest)).abortsWith abortMsg := by
  intro bad
  induction bad with
  | nil => exact fun rest _ => ⟨[abortMsg], rfl, by simp⟩
  | cons s bs ih =>
    intro rest hinv
    obtain ⟨hne, hfail⟩ := intAttemptInvalid_spec (hinv s (by simp))
    have hrec := ih rest (fun t ht => hinv t (by simp [ht]))
    cases hparse : int_of_string s with
    | none =>
      simp only [List.length_cons, List.cons_append, user_input_integer, if_neg hne, hparse]
      exact prependOut_abortsWith _ _ _ hrec
    | some i =>
      have hp := hfail i hparse
      simp only [List.length_cons, List.cons_append, user_input_integer, if_neg hne, hparse, hp,
        Bool.false_eq_true, if_false]
      exact prependOut_abortsWith _ _ _ hrec

theorem user_input_float_exhaust (d : PyFloat) (p : PyFloat → Bool) :
    ∀ bad rest : List String, (∀ s ∈ bad, floatAttemptInvalid p s = true) →
      (user_input_float d p bad.length (bad ++ rest)).abortsWith abortMsg := by
  intro bad
  induction bad with
  | nil => exact fun rest _ => ⟨[abortMsg], rfl, by simp⟩
  | cons s bs ih =>
    intro rest hinv
    obtain ⟨hne, hfail⟩ := floatAttemptInvalid_spec (hinv s (by simp))
    have hrec := ih rest (fun t ht => hinv t (by simp [ht]))
    cases hparse : float_of_string s with
    | none =>
      simp only [List.length_cons, List.cons_append, user_input_float, if_neg hne, hparse]
      exact prependOut_abortsWith _ _ _ hrec
    | some x =>
      have hp := hfail x hparse
      simp only [List.length_cons, List.cons_append, user_input_float, if_neg hne, hparse, hp,
        Bool.false_eq_true, if_false]
      exact prependOut_abortsWith _ _ _ hrec

theorem user_input_integer_default (d : ℤ) (p : ℤ → Bool) (n : ℕ) (rest : List String) :
    user_input_integer d p (n + 1) ("" :: rest) =
      .ok d rest ["Value chosen: " ++ toString d, ""] := by
  simp [user_input_integer]

theorem user_input_float_default (d : PyFloat) (p : PyFloat → Bool) (n : ℕ) (rest : List String) :
    user_input_float d p (n + 1) ("" :: rest) =
      .ok d rest ["Value chosen: " ++ pyFloatRepr d, ""] := by
  simp [user_input_float]

theorem user_input_integer_skip (d : ℤ) (p : ℤ → Bool) :
    ∀ (bad : List String) (maxTries : ℕ) (rest : List String),
      bad.length < maxTries → (∀ s ∈ bad, intAttemptInvalid p s = true) →
      ∃ out, user_input_integer d p maxTries (bad ++ "" :: rest) = .ok d rest out := by
  intro bad
  induction bad with
  | nil =>
    intro maxTries rest hlt _
    obtain ⟨n, rfl⟩ : ∃ n, maxTries = n + 1 := ⟨maxTries - 1, by omega⟩
    exact ⟨_, user_input_integer_default d p n rest⟩
  | cons s bs ih =>
    intro maxTries rest hlt hinv
    obtain ⟨n, rfl⟩ : ∃ n, maxTries = n + 1 := ⟨maxTries - 1, by omega⟩
    obtain ⟨hne, hfail⟩ := intAttemptInvalid_spec (hinv s (by simp))
    obtain ⟨out, hout⟩ :=
      ih n rest (by simpa using hlt) (fun t ht => hinv t (by simp [ht]))
    cases hparse : int_of_string s with
    | none =>
      refine ⟨["Input is not an integer.\n"] ++ out, ?_⟩
      simp only [List.cons_append, user_input_integer, if_neg hne, hparse, List.append_eq,
        hout, prependOut]
    | some i =>
      have hp := hfail i hparse
      refine ⟨["Input is not within allowed range.\n"] ++ out, ?_⟩
      simp only [List.cons_append, user_input_integer, if_neg hne, hparse, hp,
        Bool.false_eq_true, if_false, List.append_eq, hout, prependOut]

theorem user_input_float_skip (d : PyFloat) (p : PyFloat → Bool) :
    ∀ (bad : List String) (maxTries : ℕ) (rest : List String),
      bad.length < maxTries → (∀ s ∈ bad, floatAttemptInvalid p s = true) →
      ∃ out, user_input_float d p maxTries (bad ++ "" :: rest) = .ok d rest out := by
  intro bad
  induction bad with
  | nil =>
    intro maxTries rest hlt _
    obtain ⟨n, rfl⟩ : ∃ n, maxTries = n + 1 := ⟨maxTries - 1, by omega⟩
    exact ⟨_, user_input_float_default d p n rest⟩
  | cons s bs ih =>
    intro maxTries rest hlt hinv
    obtain ⟨n, rfl⟩ : ∃ n, maxTries = n + 1 := ⟨maxTries - 1, by omega⟩
    obtain ⟨hne, hfail⟩ := floatAttemptInvalid_spec (hinv s (by simp))
    obtain ⟨out, hout⟩ :=
      ih n rest (by simpa using hlt) (fun t ht => hinv t (by simp [ht]))
    cases hparse : float_of_string s with
    | none =>
      refine ⟨["Input is not a float.\n"] ++ out, ?_⟩
      simp only [List.cons_append, user_input_float, if_neg hne, hparse, List.append_eq,
        hout, prependOut]
    | some x =>
      have hp := hfail x hparse
      refine ⟨["Input is not within allowed range.\n"] ++ out, ?_⟩
      simp only [List.cons_append, user_input_float, if_neg hne, hparse, hp,
        Bool.false_eq_true, if_false, List.append_eq, hout, prependOut]

theorem user_input_integer_ok_sound (d : ℤ) (p : ℤ → Bool) :
    ∀ (maxTries : ℕ) (inputs : List String) (v : ℤ) (rest out : List String),
      user_input_integer d p maxTries inputs = .ok v rest out → v = d ∨ p v = true := by
  intro maxTries
  induction maxTries with
  | zero => intro inputs v rest out h; simp [user_input_integer] at h
  | succ n ih =>
    intro inputs v rest out h
    cases inputs with
    | nil => simp [user_input_integer] at h
    | cons s t =>
      by_cases hs : s = ""
      · subst hs
        rw [user_input_integer_default] at h
        simp only [StepResult.ok.injEq] at h
        exact Or.inl h.1.symm
      · simp only [user_input_integer, if_neg hs] at h
        cases hparse : int_of_string s with
        | none =>
          rw [hparse] at h
          obtain ⟨o2, ho2⟩ := eq_ok_of_prependOut h
          exact ih t v rest o2 ho2
        | some i =>
          rw [hparse] at h
          by_cases hp : p i = true
          · simp only [hp, if_true, StepResult.ok.injEq] at h
            exact Or.inr (h.1 ▸ hp)
          · simp only [Bool.not_eq_true] at hp
            simp only [hp, Bool.false_eq_true, if_false] at h
            obtain ⟨o2, ho2⟩ := eq_ok_of_prependOut h
            exact ih t v rest o2 ho2

theorem user_input_float_ok_sound (d : PyFloat) (p : PyFloat → Bool) :
    ∀ (maxTries : ℕ) (inputs : List String) (v : PyFloat) (rest out : List String),
      user_input_float d p maxTries inputs = .ok v rest out → v = d ∨ p v = true := by
  intro maxTries
  induction maxTries with
  | zero => intro inputs v rest out h; simp [user_input_float] at h
  | succ n ih =>
    intro inputs v rest out h
    cases inputs with
    | nil => simp [user_input_float] at h
    | cons s t =>
      by_cases hs : s = ""
      · subst hs
        rw [user_input_float_default] at h
        simp only [StepResult.ok.injEq] at h
        exact Or.inl h.1.symm
      · simp only [user_input_float, if_neg hs] at h
        cases hparse : float_of_string s with
        | none =>
          rw [hparse] at h
          obtain ⟨o2, ho2⟩ := eq_ok_of_prependOut h
          exact ih t v rest o2 ho2
        | some x =>
          rw [hparse] at h
          by_cases hp : p x = true
          · simp only [hp, if_true, StepResult.ok.injEq] at h
            exact Or.inr (h.1 ▸ hp)
          · simp only [Bool.not_eq_true] at hp
            simp only [hp, Bool.false_eq_true, if_false] at h
            obtain ⟨o2, ho2⟩ := eq_ok_of_prependOut h
            exact ih t v rest o2 ho2

theorem api_key_loop_exhaust (valid : String → Bool) (maxTries : ℕ) :
    ∀ (ks : List String) (k : String) (n : ℕ) (rest : List String),
      valid k = false → (∀ x ∈ ks, valid x = false) → maxTries ≤ n + ks.length →
      (api_key_loop valid maxTries k n (ks ++ rest)).abortsWith abortMsg := by
  intro ks
  induction ks with
  | nil =>
    intro k n rest hk _ hle
    refine ⟨[abortMsg], ?_, by simp⟩
    simp only [List.length_nil, Nat.add_zero] at hle
    rw [api_key_loop.eq_def]
    simp [hk, hle]
  | cons k2 ks ih =>
    intro k n rest hk hks hle
    by_cases hmn : maxTries ≤ n
    · refine ⟨[abortMsg], ?_, by simp⟩
      rw [api_key_loop.eq_def]
      simp [hk, hmn]
    · have hrec := ih k2 (n + 1) rest (hks k2 (by simp))
        (fun x hx => hks x (by simp [hx])) (by simp at hle ⊢; omega)
      rw [List.cons_append, api_key_loop.eq_def]
      simp only [hk, Bool.false_eq_true, if_false, if_neg hmn]
      exact prependOut_abortsWith _ _ _ hrec

theorem user_input_api_key_ok (valid : String → Bool) (maxTries : ℕ) (k : String)
    (rest : List String) (h : valid k = true) :
    user_input_api_key valid maxTries (k :: rest) = .ok k rest [] := by
  simp only [user_input_api_key]
  rw [api_key_loop.eq_def]
  simp [h]

theorem api_key_second_try_ok (valid : String → Bool) (maxTries : ℕ) (k1 k2 : String)
    (rest : List String) (h1 : valid k1 = false) (h2 : valid k2 = true)
    (hmt : 2 ≤ maxTries) :
    user_input_api_key valid maxTries (k1 :: k2 :: rest) =
      .ok k2 rest ["The API key is not valid."] := by
  have hn1 : ¬maxTries ≤ 1 := by omega
  simp only [user_input_api_key]
  rw [api_key_loop.eq_def]
  simp only [h1, Bool.false_eq_true, if_false, if_neg hn1]
  rw [api_key_loop.eq_def]
  simp [h2, prependOut]

theorem user_input_model_ok (stepNum maxTries : ℕ) (s : String) (rest : List String)
    (h : isValidModelChoice s = true) :
    user_input_model stepNum maxTries (s :: rest) =
      .ok (modelChoiceName s) rest
        (modelMenu stepNum ++ ["Model chosen: " ++ modelChoiceName s, ""]) := by
  simp only [user_input_model]
  rw [user_input_model_loop.eq_def]
  simp [h, prependOut]

theorem modelChoiceName_mem {s : String} (h : isValidModelChoice s = true) :
    modelChoiceName s ∈ AvailableModels.as_list := by
  unfold isValidModelChoice at h
  cases hparse : int_of_string s with
  | none => rw [hparse] at h; simp at h
  | some i =>
    rw [hparse] at h
    simp only [decide_eq_true_eq] at h
    obtain ⟨h1, h5⟩ := h
    unfold modelChoiceName
    rw [hparse]
    interval_cases i <;> decide

theorem user_input_model_loop_ok_sound (maxTries : ℕ) :
    ∀ (inputs : List String) (m : String) (n : ℕ) (v : String) (rest out : List String),
      user_input_model_loop maxTries m n inputs = .ok v rest out →
      v ∈ AvailableModels.as_list := by
  intro inputs
  induction inputs with
  | nil =>
    intro m n v rest out h
    rw [user_input_model_loop.eq_def] at h
    by_cases hv : isValidModelChoice m = true
    · simp only [hv, if_true, StepResult.ok.injEq] at h
      exact h.1 ▸ modelChoiceName_mem hv
    · simp only [if_neg hv] at h
      by_cases hmn : maxTries ≤ n
      · simp [hmn] at h
      · simp [if_neg hmn] at h
  | cons s t ih =>
    intro m n v rest out h
    rw [user_input_model_loop.eq_def] at h
    by_cases hv : isValidModelChoice m = true
    · simp only [hv, if_true, StepResult.ok.injEq] at h
      exact h.1 ▸ modelChoiceName_mem hv
    · simp only [if_neg hv] at h
      by_cases hmn : maxTries ≤ n
      · simp [hmn] at h
      · simp only [if_neg hmn] at h
        obtain ⟨o2, ho2⟩ := eq_ok_of_prependOut h
        exact ih s (n + 1) v rest o2 ho2

theorem user_input_model_ok_sound (stepNum maxTries : ℕ) :
    ∀ (inputs : List String) (v : String) (rest out : List String),
      user_input_model stepNum maxTries inputs = .ok v rest out →
      v ∈ AvailableModels.as_list := by
  intro inputs v rest out h
  cases inputs with
  | nil => simp [user_input_model] at h
  | cons s t =>
    simp only [user_input_model] at h
    obtain ⟨o2, ho2⟩ := eq_ok_of_prependOut h
    exact user_input_model_loop_ok_sound maxTries t s 1 v rest o2 ho2

theorem modelChoiceName_ordinal (s : String) (i : ℤ)
    (hp : int_of_string s = some i) (h1 : 1 ≤ i) (h4 : i ≤ 4) :
    AvailableModels.as_list.get? (i - 1).toNat = some (modelChoiceName s) := by
  unfold modelChoiceName
  rw [hp]
  interval_cases i <;> decide

theorem user_input_model_reject_first (stepNum : ℕ) (s : String) (rest : List String)
    (h : isValidModelChoice s = false) :
    user_input_model stepNum 1 (s :: rest) = .aborted (modelMenu stepNum ++ [abortMsg]) := by
  simp only [user_input_model]
  rw [user_input_model_loop.eq_def]
  simp [h, prependOut]

theorem isValidModelChoice_iff (s : String) :
    isValidModelChoice s = true ↔ ∃ i, int_of_string s = some i ∧ 1 ≤ i ∧ i ≤ 4 := by
  unfold isValidModelChoice
  cases hparse : int_of_string s with
  | none => simp
  | some i =>
    simp only [decide_eq_true_eq, Option.some.injEq]
    constructor
    · rintro ⟨h1, h5⟩
      exact ⟨i, rfl, h1, by omega⟩
    · rintro ⟨j, rfl, h1, h4⟩
      exact ⟨h1, by omega⟩

theorem unitRangePred_spec (x : PyFloat) (h : unitRangePred x = true) :
    ∃ q : ℚ, x = .finite q ∧ 0 ≤ q ∧ q ≤ 1 := by
  cases x with
  | finite q =>
    simp only [unitRangePred, pyLe, Bool.and_eq_true, decide_eq_true_eq] at h
    exact ⟨q, rfl, h.1, h.2⟩
  | nan => simp [unitRangePred, pyLe] at h
  | inf b => cases b <;> simp [unitRangePred, pyLe] at h

theorem penaltyRangePred_spec (x : PyFloat) (h : penaltyRangePred x = true) :
    ∃ q : ℚ, x = .finite q ∧ -2 ≤ q ∧ q ≤ 2 := by
  cases x with
  | finite q =>
    simp only [penaltyRangePred, pyLe, Bool.and_eq_true, decide_eq_true_eq] at h
    exact ⟨q, rfl, h.1, h.2⟩
  | nan => simp [penaltyRangePred, pyLe] at h
  | inf b => cases b <;> simp [penaltyRangePred, pyLe] at h

/-- C1: for every numeric prompt step (answer count, max tokens, temperature,
top_p, frequency penalty, presence penalty) and every `max_tries >= 1`,
exactly `max_tries` consecutive invalid inputs make the step print
"Too many invalid tries. Aborted!" and `exit(1)`; at the whole-run level
(driver modelled from the spec) the run then has exit status 1 and no
configuration file is written.  Stated generically for the two shared
prompt routines and, per step, for the wizard run that reaches that step
with defaults accepted earlier. -/
theorem c1_retry_exhaustion_aborts_run :
    (∀ (d : ℤ) (p : ℤ → Bool) (maxTries : ℕ), 1 ≤ maxTries →
      ∀ bad rest : List String, bad.length = maxTries →
        (∀ s ∈ bad, intAttemptInvalid p s = true) →
        (user_input_integer d p maxTries (bad ++ rest)).abortsWith abortMsg) ∧
    (∀ (d : PyFloat) (p : PyFloat → Bool) (maxTries : ℕ), 1 ≤ maxTries →
      ∀ bad rest : List String, bad.length = maxTries →
        (∀ s ∈ bad, floatAttemptInvalid p s = true) →
        (user_input_float d p maxTries (bad ++ rest)).abortsWith abortMsg) ∧
    (∀ (maxTries : ℕ), 1 ≤ maxTries → ∀ (key : String) (bad rest : List String),
      bad.length = maxTries → (∀ s ∈ bad, intAttemptInvalid posIntPred s = true) →
      (runWizard (fun _ => true) maxTries (key :: "4" :: (bad ++ rest))).exitCode = some 1 ∧
      (runWizard (fun _ => true) maxTries (key :: "4" :: (bad ++ rest))).configWritten = none) ∧
    (∀ (maxTries : ℕ), 1 ≤ maxTries → ∀ (key : String) (bad rest : List String),
      bad.length = maxTries → (∀ s ∈ bad, intAttemptInvalid posIntPred s = true) →
      (runWizard (fun _ => true) maxTries (key :: "4" :: "" :: (bad ++ rest))).exitCode = some 1 ∧
      (runWizard (fun _ => true) maxTries (key :: "4" :: "" :: (bad ++ rest))).configWritten = none) ∧
    (∀ (maxTries : ℕ), 1 ≤ maxTries → ∀ (key : String) (bad rest : List String),
      bad.length = maxTries → (∀ s ∈ bad, floatAttemptInvalid unitRangePred s = true) →
      (runWizard (fun _ => true) maxTries
        (key :: "4" :: "" :: "" :: (bad ++ rest))).exitCode = some 1 ∧
      (runWizard (fun _ => true) maxTries
        (key :: "4" :: "" :: "" :: (bad ++ rest))).configWritten = none) ∧
    (∀ (maxTries : ℕ), 1 ≤ maxTries → ∀ (key : String) (bad rest : List String),
      bad.length = maxTries → (∀ s ∈ bad, floatAttemptInvalid unitRangePred s = true) →
      (runWizard (fun _ => true) maxTries
        (key :: "4" :: "" :: "" :: "" :: (bad ++ rest))).exitCode = some 1 ∧
      (runWizard (fun _ => true) maxTries
        (key :: "4" :: "" :: "" :: "" :: (bad ++ rest))).configWritten = none) ∧
    (∀ (maxTries : ℕ), 1 ≤ maxTries → ∀ (key : String) (bad rest : List String),
      bad.length = maxTries → (∀ s ∈ bad, floatAttemptInvalid penaltyRangePred s = true) →
      (runWizard (fun _ => true) maxTries
        (key :: "4" :: "" :: "" :: "" :: "" :: (bad ++ rest))).exitCode = some 1 ∧
      (runWizard (fun _ => true) maxTries
        (key :: "4" :: "" :: "" :: "" :: "" :: (bad ++ rest))).configWritten = none) ∧
    (∀ (maxTries : ℕ), 1 ≤ maxTries → ∀ (key : String) (bad rest : List String),
      bad.length = maxTries → (∀ s ∈ bad, floatAttemptInvalid penaltyRangePred s = true) →
      (runWizard (fun _ => true) maxTries
        (key :: "4" :: "" :: "" :: "" :: "" :: "" :: (bad ++ rest))).exitCode = some 1 ∧
      (runWizard (fun _ => true) maxTries
        (key :: "4" :: "" :: "" :: "" :: "" :: "" :: (bad ++ rest))).configWritten = none) := by
  refine ⟨?_, ?_, ?_, ?_, ?_, ?_, ?_, ?_⟩
  · intro d p maxTries _ bad rest hlen hinv
    have h := user_input_integer_exhaust d p bad rest hinv
    rwa [hlen] at h
  · intro d p maxTries _ bad rest hlen hinv
    have h := user_input_float_exhaust d p bad rest hinv
    rwa [hlen] at h
  · intro maxTries hmt key bad rest hlen hinv
    obtain ⟨n, rfl⟩ : ∃ n, maxTries = n + 1 := ⟨maxTries - 1, by omega⟩
    have h := user_input_integer_exhaust 1 posIntPred bad rest hinv
    rw [hlen] at h
    obtain ⟨out, hout, -⟩ := h
    have hrun : runWizard (fun _ => true) (n + 1) (key :: "4" :: (bad ++ rest)) = .abortedRun := by
      simp only [runWizard]
      rw [user_input_api_key_ok _ _ _ _ rfl]
      simp only [runStep]
      rw [user_input_model_ok 1 (n + 1) "4" (bad ++ rest) (by decide)]
      simp only [runStep, user_input_num_answers]
      rw [hout]
    rw [hrun]
    exact ⟨rfl, rfl⟩
  · intro maxTries hmt key bad rest hlen hinv
    obtain ⟨n, rfl⟩ : ∃ n, maxTries = n + 1 := ⟨maxTries - 1, by omega⟩
    have h := user_input_integer_exhaust 300 posIntPred bad rest hinv
    rw [hlen] at h
    obtain ⟨out, hout, -⟩ := h
    have hrun : runWizard (fun _ => true) (n + 1)
        (key :: "4" :: "" :: (bad ++ rest)) = .abortedRun := by
      simp only [runWizard]
      rw [user_input_api_key_ok _ _ _ _ rfl]
      simp only [runStep]
      rw [user_input_model_ok 1 (n + 1) "4" ("" :: (bad ++ rest)) (by decide)]
      simp only [runStep, user_input_num_answers]
      rw [user_input_integer_default]
      simp only [runStep, user_input_max_token]
      rw [hout]
    rw [hrun]
    exact ⟨rfl, rfl⟩
  · intro maxTries hmt key bad rest hlen hinv
    obtain ⟨n, rfl⟩ : ∃ n, maxTries = n + 1 := ⟨maxTries - 1, by omega⟩
    have h := user_input_float_exhaust (.finite (0.4 : ℚ)) unitRangePred bad rest hinv
    rw [hlen] at h
    obtain ⟨out, hout, -⟩ := h
    have hrun : runWizard (fun _ => true) (n + 1)
        (key :: "4" :: "" :: "" :: (bad ++ rest)) = .abortedRun := by
      simp only [runWizard]
      rw [user_input_api_key_ok _ _ _ _ rfl]
      simp only [runStep]
      rw [user_input_model_ok 1 (n + 1) "4" ("" :: "" :: (bad ++ rest)) (by decide)]
      simp only [runStep, user_input_num_answers]
      rw [user_input_integer_default]
      simp only [runStep, user_input_max_token]
      rw [user_input_integer_default]
      simp only [runStep, user_input_temperature]
      rw [hout]
    rw [hrun]
    exact ⟨rfl, rfl⟩
  · intro maxTries hmt key bad rest hlen hinv
    obtain ⟨n, rfl⟩ : ∃ n, maxTries = n + 1 := ⟨maxTries - 1, by omega⟩
    have h := user_input_float_exhaust (.finite 0) unitRangePred bad rest hinv
    rw [hlen] at h
    obtain ⟨out, hout, -⟩ := h
    have hrun : runWizard (fun _ => true) (n + 1)
        (key :: "4" :: "" :: "" :: "" :: (bad ++ rest)) = .abortedRun := by
      simp only [runWizard]
      rw [user_input_api_key_ok _ _ _ _ rfl]
      simp only [runStep]
      rw [user_input_model_ok 1 (n + 1) "4" ("" :: "" :: "" :: (bad ++ rest)) (by decide)]
      simp only [runStep, user_input_num_answers]
      rw [user_input_integer_default]
      simp only [runStep, user_input_max_token]
      rw [user_input_integer_default]
      simp only [runStep, user_input_temperature]
      rw [user_input_float_default]
      simp only [runStep, user_input_top_p]
      rw [hout]
    rw [hrun]
    exact ⟨rfl, rfl⟩
  · intro maxTries hmt key bad rest hlen hinv
    obtain ⟨n, rfl⟩ : ∃ n, maxTries = n + 1 := ⟨maxTries - 1, by omega⟩
    have h := user_input_float_exhaust (.finite 0) penaltyRangePred bad rest hinv
    rw [hlen] at h
    obtain ⟨out, hout, -⟩ := h
    have hrun : runWizard (fun _ => true) (n + 1)
        (key :: "4" :: "" :: "" :: "" :: "" :: (bad ++ rest)) = .abortedRun := by
      simp only [runWizard]
      rw [user_input_api_key_ok _ _ _ _ rfl]
      simp only [runStep]
      rw [user_input_model_ok 1 (n + 1) "4" ("" :: "" :: "" :: "" :: (bad ++ rest)) (by decide)]
      simp only [runStep, user_input_num_answers]
      rw [user_input_integer_default]
      simp only [runStep, user_input_max_token]
      rw [user_input_integer_default]
      simp only [runStep, user_input_temperature]
      rw [user_input_float_default]
      simp only [runStep, user_input_top_p]
      rw [user_input_float_default]
      simp only [runStep, user_input_frequency_penalty]
      rw [hout]
    rw [hrun]
    exact ⟨rfl, rfl⟩
  · intro maxTries hmt key bad rest hlen hinv
    obtain ⟨n, rfl⟩ : ∃ n, maxTries = n + 1 := ⟨maxTries - 1, by omega⟩
    have h := user_input_float_exhaust (.finite 0) penaltyRangePred bad rest hinv
    rw [hlen] at h
    obtain ⟨out, hout, -⟩ := h
    have hrun : runWizard (fun _ => true) (n + 1)
        (key :: "4" :: "" :: "" :: "" :: "" :: "" :: (bad ++ rest)) = .abortedRun := by
      simp only [runWizard]
      rw [user_input_api_key_ok _ _ _ _ rfl]
      simp only [runStep]
      rw [user_input_model_ok 1 (n + 1) "4"
        ("" :: "" :: "" :: "" :: "" :: (bad ++ rest)) (by decide)]
      simp only [runStep, user_input_num_answers]
      rw [user_input_integer_default]
      simp only [runStep, user_input_max_token]
      rw [user_input_integer_default]
      simp only [runStep, user_input_temperature]
      rw [user_input_float_default]
      simp only [runStep, user_input_top_p]
      rw [user_input_float_default]
      simp only [runStep, user_input_frequency_penalty]
      rw [user_input_float_default]
      simp only [runStep, user_input_presence_penalty]
      rw [hout]
    rw [hrun]
    exact ⟨rfl, rfl⟩

theorem c1_retry_exhaustion_aborts_run_witness :
    (runWizard (fun _ => true) 1 ("k" :: "4" :: (["x"] ++ []))).exitCode = some 1 ∧
    (runWizard (fun _ => true) 1 ("k" :: "4" :: (["x"] ++ []))).configWritten = none :=
  c1_retry_exhaustion_aborts_run.2.2.1 1 (by decide) "k" ["x"] [] (by decide) (by decide)

/-- C2: for every numeric prompt step, an empty line returns exactly that
step's documented default (1, 300, 0.4, 0.0, 0.0, 0.0 respectively) no
matter how many invalid attempts were consumed earlier in the step (any
number below `max_tries`, else the step would already have aborted), and
validation is skipped for the default (the generic conjuncts hold for an
arbitrary predicate, including ones the default fails). -/
theorem c2_empty_input_yields_default :
    (∀ (d : ℤ) (p : ℤ → Bool) (maxTries : ℕ) (bad rest : List String),
      bad.length < maxTries → (∀ s ∈ bad, intAttemptInvalid p s = true) →
      ∃ out, user_input_integer d p maxTries (bad ++ "" :: rest) = .ok d rest out) ∧
    (∀ (d : PyFloat) (p : PyFloat → Bool) (maxTries : ℕ) (bad rest : List String),
      bad.length < maxTries → (∀ s ∈ bad, floatAttemptInvalid p s = true) →
      ∃ out, user_input_float d p maxTries (bad ++ "" :: rest) = .ok d rest out) ∧
    (∀ (maxTries : ℕ) (bad rest : List String),
      bad.length < maxTries → (∀ s ∈ bad, intAttemptInvalid posIntPred s = true) →
      ∃ out, user_input_num_answers maxTries (bad ++ "" :: rest) = .ok 1 rest out) ∧
    (∀ (maxTries : ℕ) (bad rest : List String),
      bad.length < maxTries → (∀ s ∈ bad, intAttemptInvalid posIntPred s = true) →
      ∃ out, user_input_max_token maxTries (bad ++ "" :: rest) = .ok 300 rest out) ∧
    (∀ (maxTries : ℕ) (bad rest : List String),
      bad.length < maxTries → (∀ s ∈ bad, floatAttemptInvalid unitRangePred s = true) →
      ∃ out, user_input_temperature maxTries (bad ++ "" :: rest) =
        .ok (.finite (0.4 : ℚ)) rest out) ∧
    (∀ (maxTries : ℕ) (bad rest : List String),
      bad.length < maxTries → (∀ s ∈ bad, floatAttemptInvalid unitRangePred s = true) →
      ∃ out, user_input_top_p maxTries (bad ++ "" :: rest) = .ok (.finite 0) rest out) ∧
    (∀ (maxTries : ℕ) (bad rest : List String),
      bad.length < maxTries → (∀ s ∈ bad, floatAttemptInvalid penaltyRangePred s = true) →
      ∃ out, user_input_frequency_penalty maxTries (bad ++ "" :: rest) =
        .ok (.finite 0) rest out) ∧
    (∀ (maxTries : ℕ) (bad rest : List String),
      bad.length < maxTries → (∀ s ∈ bad, floatAttemptInvalid penaltyRangePred s = true) →
      ∃ out, user_input_presence_penalty maxTries (bad ++ "" :: rest) =
        .ok (.finite 0) rest out) := by
  refine ⟨?_, ?_, ?_, ?_, ?_, ?_, ?_, ?_⟩
  · exact fun d p maxTries bad rest hlt hinv => user_input_integer_skip d p bad maxTries rest hlt hinv
  · exact fun d p maxTries bad rest hlt hinv => user_input_float_skip d p bad maxTries rest hlt hinv
  · exact fun maxTries bad rest hlt hinv =>
      user_input_integer_skip 1 posIntPred bad maxTries rest hlt hinv
  · exact fun maxTries bad rest hlt hinv =>
      user_input_integer_skip 300 posIntPred bad maxTries rest hlt hinv
  · exact fun maxTries bad rest hlt hinv =>
      user_input_float_skip (.finite (0.4 : ℚ)) unitRangePred bad maxTries rest hlt hinv
  · exact fun maxTries bad rest hlt hinv =>
      user_input_float_skip (.finite 0) unitRangePred bad maxTries rest hlt hinv
  · exact fun maxTries bad rest hlt hinv =>
      user_input_float_skip (.finite 0) penaltyRangePred bad maxTries rest hlt hinv
  · exact fun maxTries bad rest hlt hinv =>
      user_input_float_skip (.finite 0) penaltyRangePred bad maxTries rest hlt hinv

theorem c2_empty_input_yields_default_witness :
    ∃ out, user_input_max_token 3 (["oops"] ++ "" :: []) = .ok 300 [] out :=
  c2_empty_input_yields_default.2.2.2.1 3 ["oops"] [] (by decide) (by decide)

/-- C3: the model-selection step accepts an input exactly when it parses as
an integer in 1–4; a valid first input is accepted at once and mapped to
the corresponding fixed model identifier (the `i`-th entry of
`AvailableModels.as_list`, i.e. 1 ↦ text-ada-001, 2 ↦ text-babbage-001,
3 ↦ text-curie-001, 4 ↦ text-davinci-003), which is the value the step
stores into the configuration's model field; an invalid input is never
accepted (with a single allowed try it aborts the run instead). -/
theorem c3_model_selection_ordinals :
    (∀ s : String, isValidModelChoice s = true ↔
      ∃ i, int_of_string s = some i ∧ 1 ≤ i ∧ i ≤ 4) ∧
    (∀ (stepNum maxTries : ℕ) (s : String) (rest : List String),
      isValidModelChoice s = true →
      user_input_model stepNum maxTries (s :: rest) =
        .ok (modelChoiceName s) rest
          (modelMenu stepNum ++ ["Model chosen: " ++ modelChoiceName s, ""])) ∧
    (∀ (s : String) (i : ℤ), int_of_string s = some i → 1 ≤ i → i ≤ 4 →
      AvailableModels.as_list.get? (i - 1).toNat = some (modelChoiceName s)) ∧
    (∀ (stepNum : ℕ) (s : String) (rest : List String), isValidModelChoice s = false →
      user_input_model stepNum 1 (s :: rest) = .aborted (modelMenu stepNum ++ [abortMsg])) ∧
    modelChoiceName "1" = "text-ada-001" ∧
    modelChoiceName "2" = "text-babbage-001" ∧
    modelChoiceName "3" = "text-curie-001" ∧
    modelChoiceName "4" = "text-davinci-003" := by
  refine ⟨isValidModelChoice_iff, ?_, modelChoiceName_ordinal, ?_, rfl, rfl, rfl, rfl⟩
  · exact fun stepNum maxTries s rest h => user_input_model_ok stepNum maxTries s rest h
  · exact fun stepNum s rest h => user_input_model_reject_first stepNum s rest h

theorem c3_model_selection_ordinals_witness :
    user_input_model 2 3 ("3" :: []) =
      .ok (modelChoiceName "3") []
        (modelMenu 2 ++ ["Model chosen: " ++ modelChoiceName "3", ""]) :=
  c3_model_selection_ordinals.2.1 2 3 "3" [] (by decide)

/-- C4: in the credential step an authentication failure reported by the
external credential-check collaborator is handled exactly like a validation
failure — the operator is re-prompted with "The API key is not valid."
under the same bounded retry counter — and with `max_tries = 3` three
consecutive authentication failures terminate the run with exit status 1
before any credential file is created (driver modelled from the spec). -/
theorem c4_auth_failure_is_validation_failure :
    (∀ (valid : String → Bool) (maxTries : ℕ), 1 ≤ maxTries →
      ∀ (keys rest : List String), keys.length = maxTries →
        (∀ k ∈ keys, valid k = false) →
        (user_input_api_key valid maxTries (keys ++ rest)).abortsWith abortMsg) ∧
    (∀ (valid : String → Bool) (maxTries : ℕ) (k1 k2 : String) (rest : List String),
      valid k1 = false → valid k2 = true → 2 ≤ maxTries →
      user_input_api_key valid maxTries (k1 :: k2 :: rest) =
        .ok k2 rest ["The API key is not valid."]) ∧
    (∀ (valid : String → Bool) (k1 k2 k3 : String) (rest : List String),
      valid k1 = false → valid k2 = false → valid k3 = false →
      (runWizard valid 3 (k1 :: k2 :: k3 :: rest)).exitCode = some 1 ∧
      (runWizard valid 3 (k1 :: k2 :: k3 :: rest)).keyWritten = none ∧
      (runWizard valid 3 (k1 :: k2 :: k3 :: rest)).configWritten = none) := by
  refine ⟨?_, ?_, ?_⟩
  · intro valid maxTries hmt keys rest hlen hinv
    cases keys with
    | nil => exfalso; simp only [List.length_nil] at hlen; omega
    | cons k ks =>
      simp only [List.cons_append, user_input_api_key]
      exact api_key_loop_exhaust valid maxTries ks k 1 rest (hinv k (by simp))
        (fun x hx => hinv x (by simp [hx]))
        (by simp only [List.length_cons] at hlen; omega)
  · exact fun valid maxTries k1 k2 rest h1 h2 hmt =>
      api_key_second_try_ok valid maxTries k1 k2 rest h1 h2 hmt
  · intro valid k1 k2 k3 rest h1 h2 h3
    have h : (api_key_loop valid 3 k1 1 (k2 :: k3 :: rest)).abortsWith abortMsg := by
      have hks : ∀ x ∈ [k2, k3], valid x = false := by
        intro x hx
        simp only [List.mem_cons, List.not_mem_nil, or_false] at hx
        rcases hx with rfl | rfl
        · exact h2
        · exact h3
      have := api_key_loop_exhaust valid 3 [k2, k3] k1 1 rest h1 hks (by simp)
      simpa using this
    obtain ⟨out, hout, -⟩ := h
    have hrun : runWizard valid 3 (k1 :: k2 :: k3 :: rest) = .abortedRun := by
      simp only [runWizard, user_input_api_key]
      rw [hout]
      simp only [runStep]
    rw [hrun]
    exact ⟨rfl, rfl, rfl⟩

theorem c4_auth_failure_is_validation_failure_witness :
    user_input_api_key (fun k => k == "good") 3 ("bad" :: "good" :: []) =
      .ok "good" [] ["The API key is not valid."] :=
  c4_auth_failure_is_validation_failure.2.1 (fun k => k == "good") 3 "bad" "good" []
    (by decide) (by decide) (by decide)

/-- C5: for every numeric prompt step a well-typed input whose value fails
the step's range predicate is rejected with the range error and a re-prompt:
the step's outcome is exactly the outcome of the remaining attempts on the
remaining input, so the rejected value is discarded and never stored; in
particular for the temperature step the input 1.5 is rejected as out of
range and a following 0.7 is accepted and echoed as "Value chosen: 0.7". -/
theorem c5_out_of_range_rejected_no_mutation :
    (∀ (d : ℤ) (p : ℤ → Bool) (maxTries : ℕ) (s : String) (rest : List String) (i : ℤ),
      ¬s = "" → int_of_string s = some i → p i = false →
      user_input_integer d p (maxTries + 1) (s :: rest) =
        prependOut ["Input is not within allowed range.\n"]
          (user_input_integer d p maxTries rest)) ∧
    (∀ (d : PyFloat) (p : PyFloat → Bool) (maxTries : ℕ) (s : String) (rest : List String)
      (x : PyFloat),
      ¬s = "" → float_of_string s = some x → p x = false →
      user_input_float d p (maxTries + 1) (s :: rest) =
        prependOut ["Input is not within allowed range.\n"]
          (user_input_float d p maxTries rest)) ∧
    (∀ maxTries : ℕ, 2 ≤ maxTries → ∀ rest : List String,
      user_input_temperature maxTries ("1.5" :: "0.7" :: rest) =
        .ok (.finite (0.7 : ℚ)) rest
          ["Input is not within allowed range.\n", "Value chosen: 0.7", ""]) := by
  refine ⟨?_, ?_, ?_⟩
  · intro d p maxTries s rest i hne hparse hp
    simp only [user_input_integer, if_neg hne, hparse, hp, Bool.false_eq_true, if_false]
  · intro d p maxTries s rest x hne hparse hp
    simp only [user_input_float, if_neg hne, hparse, hp, Bool.false_eq_true, if_false]
  · intro maxTries hmt rest
    obtain ⟨n, rfl⟩ : ∃ n, maxTries = n + 1 + 1 := ⟨maxTries - 2, by omega⟩
    have h15 : float_of_string "1.5" = some (.finite (mkRat 15 10)) := rfl
    have hpred15 : unitRangePred (.finite (mkRat 15 10)) = false := by decide
    have h07 : float_of_string "0.7" = some (.finite (mkRat 7 10)) := rfl
    have hpred07 : unitRangePred (.finite (mkRat 7 10)) = true := by decide
    simp only [user_input_temperature, user_input_float,
      if_neg (show ¬("1.5" = "") by decide), h15, hpred15, Bool.false_eq_true, if_false,
      if_neg (show ¬("0.7" = "") by decide), h07, hpred07, if_true, prependOut,
      List.cons_append, List.nil_append]
    rw [show (mkRat 7 10) = (0.7 : ℚ) by norm_num [mkRat, Rat.normalize]]
    rfl

theorem c5_out_of_range_rejected_no_mutation_witness :
    user_input_temperature 3 ("1.5" :: "0.7" :: []) =
      .ok (.finite (0.7 : ℚ)) []
        ["Input is not within allowed range.\n", "Value chosen: 0.7", ""] :=
  c5_out_of_range_rejected_no_mutation.2.2 3 (by decide) []

/-- C6: a Configuration with fields (model=text-davinci-003, num_answers=1,
max_tokens=300, temperature=0.4, top_p=0.0, frequency_penalty=0.0,
presence_penalty=0.0) serialized by `save_config` to the structured
document and re-read yields an identical record, and the document's
top-level keys are exactly the seven Configuration fields. -/
theorem c6_config_round_trip :
    configFromDict (yaml_load (save_config defaultDavinciConfig)) = some defaultDavinciConfig ∧
    (yaml_load (save_config defaultDavinciConfig)).map Prod.fst =
      ["frequency_penalty", "max_tokens", "model", "num_answers", "presence_penalty",
       "temperature", "top_p"] := by
  have hcfg : defaultDavinciConfig =
      ⟨"text-davinci-003", 1, 300, .finite (mkRat 2 5), .finite 0, .finite 0, .finite 0⟩ := by
    unfold defaultDavinciConfig
    congr 1
    norm_num [mkRat, Rat.normalize]
  rw [hcfg]
  exact ⟨by decide, by decide⟩

/-- C7 counterexample: at the model-selection prompt, empty input does not
accept any default: three consecutive empty lines are counted as invalid
attempts and exhaust the retry budget, aborting the run. -/
theorem c7_counterexample_model_empty_not_default :
    user_input_model 1 3 ["", "", ""] =
      .aborted (modelMenu 1 ++ [modelErrMsg, modelErrMsg, abortMsg]) := by
  decide

/-- C7 (amended): for the six numeric prompt steps, empty input accepts the
step's default and short-circuits validation; the model-selection step has
no default — its validity test rejects the empty string, so an empty line
counts as an ordinary invalid attempt (with a single allowed try it
aborts). -/
theorem c7_amended_empty_default_numeric_only :
    (∀ (d : ℤ) (p : ℤ → Bool) (n : ℕ) (rest : List String),
      user_input_integer d p (n + 1) ("" :: rest) =
        .ok d rest ["Value chosen: " ++ toString d, ""]) ∧
    (∀ (d : PyFloat) (p : PyFloat → Bool) (n : ℕ) (rest : List String),
      user_input_float d p (n + 1) ("" :: rest) =
        .ok d rest ["Value chosen: " ++ pyFloatRepr d, ""]) ∧
    isValidModelChoice "" = false ∧
    (∀ (stepNum : ℕ) (rest : List String),
      user_input_model stepNum 1 ("" :: rest) = .aborted (modelMenu stepNum ++ [abortMsg])) := by
  refine ⟨user_input_integer_default, user_input_float_default, by decide, ?_⟩
  exact fun stepNum rest => user_input_model_reject_first stepNum "" rest (by decide)

/-- C8 counterexample: the model-selection step does not distinguish the two
failure kinds: the non-integer input "abc" (type failure) and the
out-of-range integer "5" both re-prompt with the same message
"Choose value between 1 and 4.". -/
theorem c8_counterexample_model_single_message :
    user_input_model 1 3 ["abc", "5", "2"] =
      .ok "text-babbage-001" []
        (modelMenu 1 ++ [modelErrMsg, modelErrMsg, "Model chosen: text-babbage-001", ""]) ∧
    _is_int "abc" = false ∧ _is_int "5" = true := by
  exact ⟨by decide, by decide, by decide⟩

/-- C8 (amended): the six numeric steps re-prompt with a specific message
distinguishing a type failure ("Input is not an integer." / "Input is not a
float.") from a range failure ("Input is not within allowed range."); the
model-selection step re-prompts with the single message "Choose value
between 1 and 4." for both failure kinds. -/
theorem c8_amended_distinct_messages_numeric_only :
    (∀ (d : ℤ) (p : ℤ → Bool) (maxTries : ℕ) (s : String) (rest : List String),
      ¬s = "" → int_of_string s = none →
      user_input_integer d p (maxTries + 1) (s :: rest) =
        prependOut ["Input is not an integer.\n"] (user_input_integer d p maxTries rest)) ∧
    (∀ (d : ℤ) (p : ℤ → Bool) (maxTries : ℕ) (s : String) (rest : List String) (i : ℤ),
      ¬s = "" → int_of_string s = some i → p i = false →
      user_input_integer d p (maxTries + 1) (s :: rest) =
        prependOut ["Input is not within allowed range.\n"]
          (user_input_integer d p maxTries rest)) ∧
    (∀ (d : PyFloat) (p : PyFloat → Bool) (maxTries : ℕ) (s : String) (rest : List String),
      ¬s = "" → float_of_string s = none →
      user_input_float d p (maxTries + 1) (s :: rest) =
        prependOut ["Input is not a float.\n"] (user_input_float d p maxTries rest)) ∧
    (∀ (d : PyFloat) (p : PyFloat → Bool) (maxTries : ℕ) (s : String) (rest : List String)
      (x : PyFloat),
      ¬s = "" → float_of_string s = some x → p x = false →
      user_input_float d p (maxTries + 1) (s :: rest) =
        prependOut ["Input is not within allowed range.\n"]
          (user_input_float d p maxTries rest)) ∧
    ("Input is not an integer.\n" ≠ "Input is not within allowed range.\n") ∧
    ("Input is not a float.\n" ≠ "Input is not within allowed range.\n") ∧
    (∀ (maxTries n : ℕ) (m v : String) (rest : List String),
      isValidModelChoice m = false → n < maxTries →
      user_input_model_loop maxTries m n (v :: rest) =
        prependOut [modelErrMsg] (user_input_model_loop maxTries v (n + 1) rest)) := by
  refine ⟨?_, ?_, ?_, ?_, by decide, by decide, ?_⟩
  · intro d p maxTries s rest hne hparse
    simp only [user_input_integer, if_neg hne, hparse]
  · intro d p maxTries s rest i hne hparse hp
    simp only [user_input_integer, if_neg hne, hparse, hp, Bool.false_eq_true, if_false]
  · intro d p maxTries s rest hne hparse
    simp only [user_input_float, if_neg hne, hparse]
  · intro d p maxTries s rest x hne hparse hp
    simp only [user_input_float, if_neg hne, hparse, hp, Bool.false_eq_true, if_false]
  · intro maxTries n m v rest hm hn
    rw [user_input_model_loop.eq_def]
    simp only [hm, Bool.false_eq_true, if_false, if_neg (by omega : ¬maxTries ≤ n)]

theorem c8_amended_distinct_messages_numeric_only_witness :
    user_input_integer 1 posIntPred (0 + 1) ("x" :: []) =
      prependOut ["Input is not an integer.\n"] (user_input_integer 1 posIntPred 0 []) :=
  c8_amended_distinct_messages_numeric_only.1 1 posIntPred 0 "x" [] (by decide) (by decide)

/-- C9: every value returned by the generic validated-prompt routines equals
the supplied default (empty input) or satisfies the step's predicate; hence
any non-default accepted temperature or top_p is a finite value in
[0.0, 1.0] and any non-default accepted penalty a finite value in
[-2.0, 2.0]; and the float-parsable input "nan" is never accepted for a
range-bounded field because both range predicates are false on NaN (shown
concretely: "nan" at the temperature prompt is rejected as out of range). -/
theorem c9_returned_values_default_or_predicate :
    (∀ (d : ℤ) (p : ℤ → Bool) (maxTries : ℕ) (inputs : List String) (v : ℤ)
      (rest out : List String),
      user_input_integer d p maxTries inputs = .ok v rest out → v = d ∨ p v = true) ∧
    (∀ (d : PyFloat) (p : PyFloat → Bool) (maxTries : ℕ) (inputs : List String) (v : PyFloat)
      (rest out : List String),
      user_input_float d p maxTries inputs = .ok v rest out → v = d ∨ p v = true) ∧
    (∀ (maxTries : ℕ) (inputs : List String) (v : PyFloat) (rest out : List String),
      user_input_temperature maxTries inputs = .ok v rest out →
      v = .finite (0.4 : ℚ) ∨ ∃ q : ℚ, v = .finite q ∧ 0 ≤ q ∧ q ≤ 1) ∧
    (∀ (maxTries : ℕ) (inputs : List String) (v : PyFloat) (rest out : List String),
      user_input_top_p maxTries inputs = .ok v rest out →
      v = .finite 0 ∨ ∃ q : ℚ, v = .finite q ∧ 0 ≤ q ∧ q ≤ 1) ∧
    (∀ (maxTries : ℕ) (inputs : List String) (v : PyFloat) (rest out : List String),
      user_input_frequency_penalty maxTries inputs = .ok v rest out →
      v = .finite 0 ∨ ∃ q : ℚ, v = .finite q ∧ -2 ≤ q ∧ q ≤ 2) ∧
    (∀ (maxTries : ℕ) (inputs : List String) (v : PyFloat) (rest out : List String),
      user_input_presence_penalty maxTries inputs = .ok v rest out →
      v = .finite 0 ∨ ∃ q : ℚ, v = .finite q ∧ -2 ≤ q ∧ q ≤ 2) ∧
    float_of_string "nan" = some .nan ∧
    unitRangePred .nan = false ∧
    penaltyRangePred .nan = false ∧
    user_input_temperature 1 ["nan"] =
      .aborted ["Input is not within allowed range.\n", abortMsg] := by
  refine ⟨user_input_integer_ok_sound, user_input_float_ok_sound, ?_, ?_, ?_, ?_,
    rfl, rfl, rfl, by decide⟩
  · intro maxTries inputs v rest out h
    rcases user_input_float_ok_sound _ _ maxTries inputs v rest out h with hd | hp
    · exact Or.inl hd
    · exact Or.inr (unitRangePred_spec v hp)
  · intro maxTries inputs v rest out h
    rcases user_input_float_ok_sound _ _ maxTries inputs v rest out h with hd | hp
    · exact Or.inl hd
    · exact Or.inr (unitRangePred_spec v hp)
  · intro maxTries inputs v rest out h
    rcases user_input_float_ok_sound _ _ maxTries inputs v rest out h with hd | hp
    · exact Or.inl hd
    · exact Or.inr (penaltyRangePred_spec v hp)
  · intro maxTries inputs v rest out h
    rcases user_input_float_ok_sound _ _ maxTries inputs v rest out h with hd | hp
    · exact Or.inl hd
    · exact Or.inr (penaltyRangePred_spec v hp)

theorem c9_returned_values_default_or_predicate_witness :
    (PyFloat.finite (mkRat 3 10)) = .finite (0.4 : ℚ) ∨
      ∃ q : ℚ, PyFloat.finite (mkRat 3 10) = .finite q ∧ 0 ≤ q ∧ q ≤ 1 :=
  c9_returned_values_default_or_predicate.2.2.1 3 ["0.3"] (.finite (mkRat 3 10)) []
    ["Value chosen: " ++ "0.3", ""] (by decide)

/-- C10: whenever the model-selection step completes normally, the stored
model value is one of the four fixed identifiers of
`AvailableModels.as_list` (the enum names with underscores replaced by
hyphens, lowercased), which are exactly text-ada-001, text-babbage-001,
text-curie-001, text-davinci-003; no other string can be produced. -/
theorem c10_model_field_closed_set :
    (∀ (stepNum maxTries : ℕ) (inputs : List String) (v : String) (rest out : List String),
      user_input_model stepNum maxTries inputs = .ok v rest out →
      v ∈ AvailableModels.as_list) ∧
    AvailableModels.as_list =
      ["text-ada-001", "text-babbage-001", "text-curie-001", "text-davinci-003"] := by
  exact ⟨fun a b c d e f h => user_input_model_ok_sound a b c d e f h, by decide⟩

theorem c10_model_field_closed_set_witness :
    "text-davinci-003" ∈ AvailableModels.as_list :=
  c10_model_field_closed_set.1 1 3 ["4"] "text-davinci-003" []
    (modelMenu 1 ++ ["Model chosen: text-davinci-003", ""]) (by decide)
